import Mathlib

/-!
Verification of the study-assistant conversation core
(`app/chatbot.py`): the answer sanitizer `StudyAssistant._sanitize_answer`,
the orchestrator `StudyAssistant.ask`, the session store helpers
`StudyAssistant._get_or_create_history` / `StudyAssistant.reset_session`,
and the note-store helpers `_retrieve_notes` / `_save_note`.

The Python code is shallowly embedded: strings are `String` (lists of
characters), the four `re.sub` passes of the sanitizer are modelled by
bespoke matchers that follow Python `re` semantics for exactly those
patterns (`^` anchors at the start of the string because `re.MULTILINE`
is not set; `.` does not cross a newline; the fenced-block pattern is
unanchored and global; each pass is followed by `str.strip()`), and the
external capabilities (Groq completion, Chroma retrieval, storage) are
explicit function parameters / flags of `ask`.
-/

set_option maxRecDepth 8192

namespace StudyBot

/-- The backquote character, written via its code point. -/
def backtick : Char := Char.ofNat 96

/-- Python `str.strip()` whitespace (the ASCII whitespace characters). -/
def pyWs (c : Char) : Bool :=
  c = ' ' || c = '\t' || c = '\n' || c = '\r' || c = '\x0b' || c = '\x0c'

/-- Model of Python `str.strip()` on a list of characters. -/
def stripChars (l : List Char) : List Char :=
  ((l.dropWhile pyWs).reverse.dropWhile pyWs).reverse

/-- Case-insensitive literal match: `matchCI pat l` consumes the literal
`pat` (given in lowercase) from the front of `l`, returning the rest.
This models a literal run inside a Python regex compiled with `(?i)`. -/
def matchCI : List Char → List Char → Option (List Char)
  | [], l => some l
  | _ :: _, [] => none
  | p :: ps, c :: cs => if c.toLower = p then matchCI ps cs else none

/-- Matcher for the anchored pattern head `thoughts?:` of
`r"(?i)^thoughts?:.*?(\n|$)"`: the greedy optional `s?` is equivalent to
trying the literal `thoughts:` first and then `thought:`. -/
def matchThoughts (l : List Char) : Option (List Char) :=
  match matchCI ("thoughts:".data) l with
  | some r => some r
  | none => matchCI ("thought:".data) l

/-- Matcher for the anchored pattern head of `r"(?i)^reasoning:.*?(\n|$)"`. -/
def matchReasoning (l : List Char) : Option (List Char) :=
  matchCI ("reasoning:".data) l

/-- Matcher for the anchored pattern head of `r"(?i)^analysis:.*?(\n|$)"`. -/
def matchAnalysis (l : List Char) : Option (List Char) :=
  matchCI ("analysis:".data) l

/-- The tail `.*?(\n|$)` of the three anchored patterns: without `re.DOTALL`,
`.` cannot cross a newline, so the lazy match extends up to and including
the first newline, or to the end of the string when there is none. -/
def dropThroughNewline : List Char → List Char
  | [] => []
  | c :: r => if c = '\n' then r else dropThroughNewline r

/-- One `re.sub(pat, "", text)` pass for an anchored pattern
`(?i)^HEAD.*?(\n|$)`: since `re.MULTILINE` is NOT set, `^` matches only at
position 0, so at most the first match (starting at the very beginning of
the string) is removed. -/
def subAnchored (m : List Char → Option (List Char)) (l : List Char) : List Char :=
  match m l with
  | some r => dropThroughNewline r
  | none => l

/-- Optional `[- ]?` separator inside the fence label
`chain[- ]?of[- ]?thought` (greedy: the separator is consumed when the
continuation still matches, otherwise the engine backtracks). -/
def matchSepOpt (k : List Char → Option (List Char)) (l : List Char) : Option (List Char) :=
  match l with
  | [] => k []
  | c :: rest =>
    if c = '-' || c = ' ' then
      match k rest with
      | some u => some u
      | none => k (c :: rest)
    else k (c :: rest)

/-- Matcher for the fence-label alternative `chain[- ]?of[- ]?thought`. -/
def matchChain (l : List Char) : Option (List Char) :=
  match matchCI ("chain".data) l with
  | some r =>
    matchSepOpt (fun r1 =>
      match matchCI ("of".data) r1 with
      | some r2 => matchSepOpt (fun r3 => matchCI ("thought".data) r3) r2
      | none => none) r
  | none => none

/-- The label alternation `(?:thought|chain[- ]?of[- ]?thought|analysis)`
of the fenced-block pattern, tried in the regex's order. -/
def fenceLabel (l : List Char) : Option (List Char) :=
  match matchCI ("thought".data) l with
  | some r => some r
  | none =>
    match matchChain l with
    | some r => some r
    | none => matchCI ("analysis".data) l

/-- Lazy `[\s\S]*?` up to the closing fence: returns the rest of the
string after the earliest occurrence of three consecutive backquotes. -/
def findClose : List Char → Option (List Char)
  | [] => none
  | c :: r =>
    if c = backtick then
      match r with
      | d :: e :: r2 => if d = backtick && e = backtick then some r2 else findClose r
      | _ => findClose r
    else findClose r

/-- Try to match the whole fenced-block pattern
`(?is)BT BT BT(?:thought|chain[- ]?of[- ]?thought|analysis)[\s\S]*?BT BT BT`
(where BT is a backquote) at the current position, returning the rest of
the string after the match. -/
def tryFence (l : List Char) : Option (List Char) :=
  match l with
  | a :: b :: c :: rest =>
    if a = backtick && b = backtick && c = backtick then
      match fenceLabel rest with
      | some r => findClose r
      | none => none
    else none
  | _ => none

/-- Global `re.sub` scan for the fenced-block pattern: left-to-right,
non-overlapping, each match replaced by the empty string. The fuel is the
length of the scanned list (each step consumes at least one character). -/
def fenceScanAux : Nat → List Char → List Char
  | _, [] => []
  | 0, l => l
  | fuel + 1, c :: rest =>
    match tryFence (c :: rest) with
    | some r => fenceScanAux fuel r
    | none => c :: fenceScanAux fuel rest

/-- The four sequential passes of `_sanitize_answer`: each `re.sub` is
followed by `str.strip()`, in the order of the Python `patterns` list. -/
def sanitizeList (l : List Char) : List Char :=
  let c1 := stripChars (subAnchored matchThoughts l)
  let c2 := stripChars (subAnchored matchReasoning c1)
  let c3 := stripChars (subAnchored matchAnalysis c2)
  stripChars (fenceScanAux c3.length c3)

/-- `StudyAssistant._sanitize_answer` from `app/chatbot.py`. -/
def _sanitize_answer (text : String) : String :=
  ⟨sanitizeList text.data⟩

/-- Python `str.strip()` on a `String`. -/
def pyStrip (s : String) : String :=
  ⟨stripChars s.data⟩

example : _sanitize_answer "My reasoning skills are great." = "My reasoning skills are great." := by
  decide

example : _sanitize_answer "Reasoning: the sky is blue\nFinal answer here" = "Final answer here" := by
  decide

example : _sanitize_answer "Thoughts: a\nReasoning: b\nRest" = "Rest" := by decide

example : _sanitize_answer "Reasoning: b\nThoughts: a\nX" = "Thoughts: a\nX" := by decide

example : _sanitize_answer "A\n```thought\nhidden\n```\nB" = "A\n\nB" := by decide

example : _sanitize_answer "  An answer.  " = "An answer." := by decide

example : _sanitize_answer "Thoughts: hidden" = "" := by decide

/-! ## Data model of the orchestrator (`StudyAssistant`) -/

/-- Message roles of the LangChain chat history (`HumanMessage` /
`AIMessage`). -/
inductive Role where
  | user
  | assistant
deriving DecidableEq

/-- One entry of a session's message log. -/
structure Message where
  role : Role
  content : String
deriving DecidableEq

/-- `StudyAssistantResponse` (the pydantic schema in `app/chatbot.py`):
`answer` is required, the three list fields default to empty lists. -/
structure StudyAssistantResponse where
  answer : String
  key_points : List String := []
  suggested_questions : List String := []
  references : List String := []
deriving DecidableEq

/-- A stored note of the Chroma vector store: its text plus the optional
`source` metadata tag. -/
structure Doc where
  page_content : String
  source : Option String := none
deriving DecidableEq

/-- Error taxonomy of the completion capability (spec section 7): the
`except (BadRequestError, ValueError, KeyError)` clause of `ask` catches
provider shape rejections (`BadRequestError`) and client-side validation
failures (`ValueError` / `KeyError`), i.e. `ProviderRejected` and
`MalformedOutput`; connectivity or rate-limit errors
(`ProviderUnavailable`) are not in the caught tuple. -/
inductive LLMError where
  | MalformedOutput
  | ProviderRejected
  | ProviderUnavailable
deriving DecidableEq

/-- Errors an `ask` call can propagate: a completion error from the last
attempted strategy, or a storage error raised by the note write. -/
inductive AskError where
  | llm (e : LLMError)
  | storage
deriving DecidableEq

/-- Whether the `except (BadRequestError, ValueError, KeyError)` clause
of `ask` catches the primary strategy's error. -/
def catchesFallback : LLMError → Bool
  | LLMError.MalformedOutput => true
  | LLMError.ProviderRejected => true
  | LLMError.ProviderUnavailable => false

/-- The payload a structured chain receives: the values substituted into
the fixed `ChatPromptTemplate` (`style`, `notes`, the session's prior
messages, and the user message). Two invocations receive an identical
prompt iff they receive equal `Prompt` values. -/
structure Prompt where
  style : String
  notes : String
  chat_history : List Message
  input : String
deriving DecidableEq

/-- The mutable state of a `StudyAssistant` instance: the per-session
message logs (`self._message_store`, a dict modelled as an association
list with unique keys) and the vector store's notes
(`self._vectorstore`). -/
structure AssistantState where
  message_store : List (String × List Message)
  notes : List Doc
deriving DecidableEq

/-- First-match lookup in the session store (Python dict indexing). -/
def lookupStore : List (String × List Message) → String → Option (List Message)
  | [], _ => none
  | p :: r, sid => if p.1 = sid then some p.2 else lookupStore r sid

/-- Removal of a key from the session store (Python `del store[sid]`,
which removes the unique entry with that key). -/
def eraseStore : List (String × List Message) → String → List (String × List Message)
  | [], _ => []
  | p :: r, sid => if p.1 = sid then r else p :: eraseStore r sid

/-- `StudyAssistant._get_or_create_history`: returns the session's log,
creating an empty one (a new dict entry) on first use. -/
def _get_or_create_history (st : AssistantState) (session_id : String) :
    AssistantState × List Message :=
  match lookupStore st.message_store session_id with
  | some h => (st, h)
  | none => ({ st with message_store := st.message_store ++ [(session_id, [])] }, [])

/-- Appending messages to the log stored under `session_id` (the
`InMemoryChatMessageHistory.add_messages` effect on the dict entry). -/
def appendMessages (st : AssistantState) (session_id : String) (ms : List Message) :
    AssistantState :=
  { st with
    message_store := st.message_store.map fun p =>
      if p.1 = session_id then (p.1, p.2 ++ ms) else p }

/-- `StudyAssistant._retrieve_notes`: formats the retriever's documents
(the top-k semantic matches, an external capability passed as the
`retriever` parameter) into the notes-context string. -/
def _retrieve_notes (retriever : List Doc → String → List Doc)
    (notes : List Doc) (query : String) : String :=
  let docs := retriever notes query
  if docs.isEmpty then ""
  else
    String.intercalate "\n\n" (docs.enum.map fun p =>
      let header := "[Note " ++ toString (p.1 + 1) ++ "]" ++
        (match p.2.source with
         | some s => if s.isEmpty then "" else " source=" ++ s
         | none => "")
      header ++ "\n" ++ p.2.page_content)

/-- `StudyAssistant._save_note`: appends one note to the vector store;
the `source` metadata is attached only when truthy (not `None`, not the
empty string), mirroring `metadata = {"source": source} if source else None`. -/
def _save_note (st : AssistantState) (text : String) (source : Option String := none) :
    AssistantState :=
  let metadata : Option String :=
    match source with
    | some s => if s.isEmpty then none else some s
    | none => none
  { st with notes := st.notes ++ [{ page_content := text, source := metadata }] }

/-- Output of the structured chains: `to_history_and_result` packs the
`AIMessage` built from the raw `resp.answer` together with the response. -/
structure ChainOutput where
  ai_message : Message
  result : StudyAssistantResponse
deriving DecidableEq

/-- `self._prompt | structured_llm | RunnableLambda(to_history_and_result)`:
the completion capability `llm` is an explicit parameter producing either
a schema-validated `StudyAssistantResponse` or an `LLMError`. -/
def runChain (llm : Prompt → Except LLMError StudyAssistantResponse) (p : Prompt) :
    Except LLMError ChainOutput :=
  match llm p with
  | Except.ok resp =>
    Except.ok { ai_message := { role := Role.assistant, content := resp.answer }, result := resp }
  | Except.error e => Except.error e

/-- Modelled from the spec: `RunnableWithMessageHistory.invoke` is an
external LangChain dependency; per its contract (configured in
`app/chatbot.py` with `input_messages_key="input"`,
`history_messages_key="chat_history"`, `output_messages_key="ai_message"`)
and spec section 4.6, it reads the session log via
`_get_or_create_history` for the prompt's `chat_history`, runs the chain,
and, only when the chain succeeds, appends the input message and the
chain's `ai_message` (whose content is the raw, pre-sanitization answer,
per `to_history_and_result`) to the session log before returning. -/
def invokeWithHistory (llm : Prompt → Except LLMError StudyAssistantResponse)
    (st : AssistantState) (input notes style session_id : String) :
    AssistantState × Except LLMError ChainOutput :=
  let pr := _get_or_create_history st session_id
  match runChain llm { style := style, notes := notes, chat_history := pr.2, input := input } with
  | Except.ok out =>
    (appendMessages pr.1 session_id [{ role := Role.user, content := input }, out.ai_message],
     Except.ok out)
  | Except.error e => (pr.1, Except.error e)

/-- The style normalization line of `ask`:
`normalized_style = style if style in {"short", "detailed"} else "short"`. -/
def normalized_style (style : String) : String :=
  if style = "short" || style = "detailed" then style else "short"

/-- The derived note text persisted by `ask` (its `note_text` f-string). -/
def note_text (message : String) (result : StudyAssistantResponse) : String :=
  "Question: " ++ message ++ "\n" ++
  "Answer: " ++ result.answer ++ "\n" ++
  "Key points: " ++
    (if result.key_points.isEmpty then "None"
     else String.intercalate ", " result.key_points) ++ "\n" ++
  "Follow-ups: " ++
    (if result.suggested_questions.isEmpty then "None"
     else String.intercalate ", " result.suggested_questions)

/-- `StudyAssistant.ask`: retrieval, style normalization, primary
(json_mode) invocation, one fallback to the secondary (json_schema)
strategy when the caught error classes occur, sanitization of the
returned answer, and the note write-back (`save_ok` models whether the
external vector-store write succeeds; on failure `_save_note` raises and
the error propagates). The returned pair is the state after the call and
the outcome the caller sees. -/
def ask (retriever : List Doc → String → List Doc)
    (llm_json llm_schema : Prompt → Except LLMError StudyAssistantResponse)
    (save_ok : Bool) (st : AssistantState) (message : String)
    (session_id : String := "default") (style : String := "short") :
    AssistantState × Except AskError StudyAssistantResponse :=
  let notes := _retrieve_notes retriever st.notes message
  let nstyle := normalized_style style
  let attempt :=
    match invokeWithHistory llm_json st message notes nstyle session_id with
    | (st1, Except.ok out) => (st1, Except.ok out)
    | (st1, Except.error e) =>
      if catchesFallback e then invokeWithHistory llm_schema st1 message notes nstyle session_id
      else (st1, Except.error e)
  match attempt with
  | (st2, Except.error e) => (st2, Except.error (AskError.llm e))
  | (st2, Except.ok out) =>
    let result := { out.result with answer := _sanitize_answer out.result.answer }
    if save_ok then
      (_save_note st2 (note_text message result) (some "assistant_session_memory"),
       Except.ok result)
    else (st2, Except.error AskError.storage)

/-- `StudyAssistant.reset_session`: deletes the session's log if present. -/
def reset_session (st : AssistantState) (session_id : String) : AssistantState :=
  match lookupStore st.message_store session_id with
  | some _ => { st with message_store := eraseStore st.message_store session_id }
  | none => st

/-- The prompt payload an `ask` call hands to whichever strategy it
invokes (both strategies receive this same value). -/
def askPrompt (retriever : List Doc → String → List Doc) (st : AssistantState)
    (message style session_id : String) : Prompt :=
  { style := normalized_style style
    notes := _retrieve_notes retriever st.notes message
    chat_history := (_get_or_create_history st session_id).2
    input := message }

/-! ## Lemmas about the sanitizer -/

/-- Occurrence check: some suffix of `l` starts (case-insensitively) with
the literal `pat`; i.e. `pat` occurs in `l` as a Python `(?i)` substring. -/
def anySuffixMatch (pat : List Char) : List Char → Bool
  | [] => (matchCI pat []).isSome
  | c :: r => (matchCI pat (c :: r)).isSome || anySuffixMatch pat r

/-- Absence of every sanitizer marker: no case-insensitive occurrence of
`thoughts:`, `thought:`, `reasoning:` or `analysis:` anywhere in the text
and no backquote character (hence no fenced block). -/
def noMarkersB (l : List Char) : Bool :=
  !anySuffixMatch ("thoughts:".data) l && !anySuffixMatch ("thought:".data) l &&
  !anySuffixMatch ("reasoning:".data) l && !anySuffixMatch ("analysis:".data) l &&
  !(l.any fun c => c = backtick)

theorem dropWhile_head_false (p : Char → Bool) (l : List Char) :
    ∀ c r, l.dropWhile p = c :: r → p c = false := by
  induction l with
  | nil => intro c r h; simp at h
  | cons a t ih =>
    intro c r h
    by_cases hp : p a = true
    · rw [List.dropWhile_cons, if_pos hp] at h
      exact ih c r h
    · rw [List.dropWhile_cons, if_neg hp] at h
      cases h
      simpa using hp

theorem dropWhile_idem (p : Char → Bool) (l : List Char) :
    (l.dropWhile p).dropWhile p = l.dropWhile p := by
  cases h : l.dropWhile p with
  | nil => rfl
  | cons c r =>
    have hc := dropWhile_head_false p l c r h
    rw [List.dropWhile_cons, if_neg (by simp [hc])]

theorem stripChars_prefix (l : List Char) :
    ∃ t, l.dropWhile pyWs = stripChars l ++ t := by
  refine ⟨((l.dropWhile pyWs).reverse.takeWhile pyWs).reverse, ?_⟩
  have h1 : stripChars l ++ ((l.dropWhile pyWs).reverse.takeWhile pyWs).reverse
      = ((l.dropWhile pyWs).reverse.takeWhile pyWs
          ++ (l.dropWhile pyWs).reverse.dropWhile pyWs).reverse := by
    rw [List.reverse_append]
    rfl
  have h2 : (l.dropWhile pyWs).reverse.takeWhile pyWs
      ++ (l.dropWhile pyWs).reverse.dropWhile pyWs = (l.dropWhile pyWs).reverse := by
    simp [List.takeWhile_append_dropWhile]
  rw [h1, h2, List.reverse_reverse]

theorem stripChars_idem (l : List Char) : stripChars (stripChars l) = stripChars l := by
  have hA : (stripChars l).dropWhile pyWs = stripChars l := by
    obtain ⟨t, ht⟩ := stripChars_prefix l
    cases hr : stripChars l with
    | nil => rfl
    | cons c r =>
      have hhead : pyWs c = false := by
        apply dropWhile_head_false pyWs l c (r ++ t)
        rw [ht, hr]; rfl
      rw [List.dropWhile_cons, if_neg (by simp [hhead])]
  have hR : (stripChars l).reverse.dropWhile pyWs = (stripChars l).reverse := by
    have hrev : (stripChars l).reverse = ((l.dropWhile pyWs).reverse).dropWhile pyWs := by
      simp [stripChars]
    rw [hrev, dropWhile_idem]
  show (((stripChars l).dropWhile pyWs).reverse.dropWhile pyWs).reverse = stripChars l
  rw [hA, hR, List.reverse_reverse]

theorem matchCI_append (pat : List Char) :
    ∀ s r e, matchCI pat s = some r → matchCI pat (s ++ e) = some (r ++ e) := by
  induction pat with
  | nil =>
    intro s r e h
    simp only [matchCI] at h ⊢
    cases h; rfl
  | cons p ps ih =>
    intro s r e h
    cases s with
    | nil => simp [matchCI] at h
    | cons c cs =>
      by_cases hc : c.toLower = p
      · rw [matchCI, if_pos hc] at h
        show matchCI (p :: ps) (c :: (cs ++ e)) = some (r ++ e)
        rw [matchCI, if_pos hc]
        exact ih cs r e h
      · rw [matchCI, if_neg hc] at h
        exact absurd h (by simp)

theorem anySuffixMatch_head (pat l : List Char)
    (h : (matchCI pat l).isSome = true) : anySuffixMatch pat l = true := by
  cases l <;> simp [anySuffixMatch, h]

theorem anySuffixMatch_head_false (pat l : List Char)
    (h : anySuffixMatch pat l = false) : matchCI pat l = none := by
  cases hm : matchCI pat l with
  | none => rfl
  | some r =>
    have := anySuffixMatch_head pat l (by simp [hm])
    rw [this] at h
    exact absurd h (by simp)

theorem anySuffixMatch_append_left (pat pre suf : List Char)
    (h : anySuffixMatch pat pre = true) : anySuffixMatch pat (pre ++ suf) = true := by
  induction pre with
  | nil =>
    simp only [anySuffixMatch] at h
    cases hm : matchCI pat [] with
    | none => rw [hm] at h; exact absurd h (by simp)
    | some r =>
      have h2 := matchCI_append pat [] r suf hm
      simp only [List.nil_append] at h2 ⊢
      exact anySuffixMatch_head pat suf (by simp [h2])
  | cons c pre ih =>
    simp only [anySuffixMatch, Bool.or_eq_true] at h
    rcases h with h | h
    · cases hm : matchCI pat (c :: pre) with
      | none => rw [hm] at h; exact absurd h (by simp)
      | some r =>
        have h2 := matchCI_append pat (c :: pre) r suf hm
        show anySuffixMatch pat (c :: (pre ++ suf)) = true
        rw [anySuffixMatch]
        rw [show c :: pre ++ suf = c :: (pre ++ suf) from rfl] at h2
        simp [h2]
    · show anySuffixMatch pat (c :: (pre ++ suf)) = true
      rw [anySuffixMatch]
      simp [ih h]

theorem anySuffixMatch_tail (pat : List Char) (c : Char) (l : List Char)
    (h : anySuffixMatch pat (c :: l) = false) : anySuffixMatch pat l = false := by
  rw [anySuffixMatch] at h
  exact (Bool.or_eq_false_iff.mp h).2

theorem noMarkersB_parts (l : List Char) (h : noMarkersB l = true) :
    anySuffixMatch ("thoughts:".data) l = false ∧
    anySuffixMatch ("thought:".data) l = false ∧
    anySuffixMatch ("reasoning:".data) l = false ∧
    anySuffixMatch ("analysis:".data) l = false ∧
    (l.any fun c => c = backtick) = false := by
  simp only [noMarkersB, Bool.and_eq_true, Bool.not_eq_true'] at h
  exact ⟨h.1.1.1.1, h.1.1.1.2, h.1.1.2, h.1.2, h.2⟩

theorem noMarkersB_build (l : List Char)
    (h1 : anySuffixMatch ("thoughts:".data) l = false)
    (h2 : anySuffixMatch ("thought:".data) l = false)
    (h3 : anySuffixMatch ("reasoning:".data) l = false)
    (h4 : anySuffixMatch ("analysis:".data) l = false)
    (h5 : (l.any fun c => c = backtick) = false) : noMarkersB l = true := by
  simp [noMarkersB, h1, h2, h3, h4, h5]

theorem noMarkersB_tail (c : Char) (l : List Char)
    (h : noMarkersB (c :: l) = true) : noMarkersB l = true := by
  obtain ⟨h1, h2, h3, h4, h5⟩ := noMarkersB_parts _ h
  refine noMarkersB_build l (anySuffixMatch_tail _ _ _ h1) (anySuffixMatch_tail _ _ _ h2)
    (anySuffixMatch_tail _ _ _ h3) (anySuffixMatch_tail _ _ _ h4) ?_
  rw [List.any_cons] at h5
  exact (Bool.or_eq_false_iff.mp h5).2

theorem noMarkersB_prefix (xs ys : List Char)
    (h : noMarkersB (xs ++ ys) = true) : noMarkersB xs = true := by
  obtain ⟨h1, h2, h3, h4, h5⟩ := noMarkersB_parts _ h
  have contra : ∀ pat, anySuffixMatch pat (xs ++ ys) = false →
      anySuffixMatch pat xs = false := by
    intro pat hfull
    cases hx : anySuffixMatch pat xs with
    | false => rfl
    | true =>
      rw [anySuffixMatch_append_left pat xs ys hx] at hfull
      exact absurd hfull (by simp)
  refine noMarkersB_build xs (contra _ h1) (contra _ h2) (contra _ h3) (contra _ h4) ?_
  rw [List.any_append] at h5
  exact (Bool.or_eq_false_iff.mp h5).1

theorem noMarkersB_dropWhile (p : Char → Bool) (l : List Char)
    (h : noMarkersB l = true) : noMarkersB (l.dropWhile p) = true := by
  induction l with
  | nil => exact h
  | cons c r ih =>
    by_cases hp : p c = true
    · rw [List.dropWhile_cons, if_pos hp]
      exact ih (noMarkersB_tail _ _ h)
    · rw [List.dropWhile_cons, if_neg hp]
      exact h

theorem noMarkersB_stripChars (l : List Char)
    (h : noMarkersB l = true) : noMarkersB (stripChars l) = true := by
  have h1 := noMarkersB_dropWhile pyWs l h
  obtain ⟨t, ht⟩ := stripChars_prefix l
  rw [ht] at h1
  exact noMarkersB_prefix _ _ h1

theorem subAnchored_id (m : List Char → Option (List Char)) (l : List Char)
    (h : m l = none) : subAnchored m l = l := by
  unfold subAnchored
  rw [h]

theorem matchThoughts_none (l : List Char)
    (h1 : anySuffixMatch ("thoughts:".data) l = false)
    (h2 : anySuffixMatch ("thought:".data) l = false) : matchThoughts l = none := by
  unfold matchThoughts
  rw [anySuffixMatch_head_false _ _ h1, anySuffixMatch_head_false _ _ h2]

theorem matchReasoning_none (l : List Char)
    (h : anySuffixMatch ("reasoning:".data) l = false) : matchReasoning l = none :=
  anySuffixMatch_head_false _ _ h

theorem matchAnalysis_none (l : List Char)
    (h : anySuffixMatch ("analysis:".data) l = false) : matchAnalysis l = none :=
  anySuffixMatch_head_false _ _ h

theorem pyWs_toLower (c : Char) (h : pyWs c = true) : c.toLower = c := by
  simp only [pyWs, Bool.or_eq_true, decide_eq_true_eq] at h
  rcases h with ((((h | h) | h) | h) | h) | h <;> subst h <;> decide

theorem dropWhile_append_left_nil (p : Char → Bool) (xs ys : List Char)
    (h : xs.dropWhile p = []) : (xs ++ ys).dropWhile p = ys.dropWhile p := by
  induction xs with
  | nil => rfl
  | cons x t ih =>
    by_cases hp : p x = true
    · rw [List.dropWhile_cons, if_pos hp] at h
      rw [List.cons_append, List.dropWhile_cons, if_pos hp]
      exact ih h
    · rw [List.dropWhile_cons, if_neg hp] at h
      exact absurd h (by simp)

theorem dropWhile_append_left_cons (p : Char → Bool) (xs ys : List Char)
    (h : xs.dropWhile p ≠ []) : (xs ++ ys).dropWhile p = xs.dropWhile p ++ ys := by
  induction xs with
  | nil => exact absurd rfl h
  | cons x t ih =>
    by_cases hp : p x = true
    · rw [List.dropWhile_cons, if_pos hp] at h
      rw [List.cons_append, List.dropWhile_cons, if_pos hp, List.dropWhile_cons, if_pos hp]
      exact ih h
    · rw [List.cons_append, List.dropWhile_cons, if_neg hp, List.dropWhile_cons, if_neg hp,
        List.cons_append]

theorem dropWhile_of_all_not (p : Char → Bool) (xs : List Char)
    (h : xs.all (fun c => !p c) = true) : xs.dropWhile p = xs := by
  cases xs with
  | nil => rfl
  | cons x t =>
    simp only [List.all_cons, Bool.and_eq_true, Bool.not_eq_true'] at h
    rw [List.dropWhile_cons, if_neg (by simp [h.1])]

theorem all_reverse_true (p : Char → Bool) (xs : List Char)
    (h : xs.all p = true) : xs.reverse.all p = true := by
  induction xs with
  | nil => rfl
  | cons x t ih =>
    rw [List.all_cons, Bool.and_eq_true] at h
    simp [List.reverse_cons, List.all_append, List.all_cons, ih h.2, h.1]

theorem any_reverse_false (p : Char → Bool) (xs : List Char)
    (h : xs.any p = false) : xs.reverse.any p = false := by
  induction xs with
  | nil => rfl
  | cons x t ih =>
    rw [List.any_cons, Bool.or_eq_false_iff] at h
    simp [List.reverse_cons, List.any_append, List.any_cons, ih h.2, h.1]

theorem any_dropWhile_false (p q : Char → Bool) (xs : List Char)
    (h : xs.any p = false) : (xs.dropWhile q).any p = false := by
  induction xs with
  | nil => rfl
  | cons x t ih =>
    rw [List.any_cons, Bool.or_eq_false_iff] at h
    by_cases hq : q x = true
    · rw [List.dropWhile_cons, if_pos hq]
      exact ih h.2
    · rw [List.dropWhile_cons, if_neg hq]
      simp [List.any_cons, h.1, h.2]

theorem any_stripChars_false (p : Char → Bool) (l : List Char)
    (h : l.any p = false) : (stripChars l).any p = false := by
  unfold stripChars
  exact any_reverse_false _ _
    (any_dropWhile_false _ _ _ (any_reverse_false _ _ (any_dropWhile_false _ _ _ h)))

theorem matchCI_decomp (pat : List Char) :
    ∀ l r, matchCI pat l = some r →
      ∃ m, l = m ++ r ∧ matchCI pat m = some [] ∧
        (pat.all (fun p => !pyWs p) = true → m.all (fun c => !pyWs c) = true) := by
  induction pat with
  | nil =>
    intro l r h
    simp only [matchCI] at h
    cases h
    exact ⟨[], rfl, rfl, fun _ => rfl⟩
  | cons p ps ih =>
    intro l r h
    cases l with
    | nil => simp [matchCI] at h
    | cons c cs =>
      by_cases hc : c.toLower = p
      · rw [matchCI, if_pos hc] at h
        obtain ⟨m, hm1, hm2, hm3⟩ := ih cs r h
        refine ⟨c :: m, by rw [hm1]; rfl, ?_, ?_⟩
        · rw [matchCI, if_pos hc]
          exact hm2
        · intro hall
          rw [List.all_cons, Bool.and_eq_true] at hall ⊢
          refine ⟨?_, hm3 hall.2⟩
          cases hwc : pyWs c with
          | false => simp [hwc]
          | true =>
            exfalso
            rw [pyWs_toLower c hwc] at hc
            have h1 := hall.1
            rw [← hc, hwc] at h1
            exact absurd h1 (by decide)
      · rw [matchCI, if_neg hc] at h
        exact absurd h (by simp)

theorem matchCI_strip (pat : List Char) (hpat : pat.all (fun p => !pyWs p) = true)
    (l r : List Char) (h : matchCI pat l = some r) :
    (matchCI pat (stripChars l)).isSome = true := by
  cases pat with
  | nil => simp [matchCI]
  | cons p ps =>
    obtain ⟨m, hm1, hm2, hm3⟩ := matchCI_decomp (p :: ps) l r h
    have hmw : m.all (fun c => !pyWs c) = true := hm3 hpat
    have hmne : m ≠ [] := by
      intro hme
      rw [hme] at hm2
      simp [matchCI] at hm2
    have hd1 : l.dropWhile pyWs = m ++ r := by
      have hmn : m.dropWhile pyWs ≠ [] := by
        rw [dropWhile_of_all_not pyWs m hmw]
        exact hmne
      rw [hm1, dropWhile_append_left_cons pyWs m r hmn, dropWhile_of_all_not pyWs m hmw]
    have hmrev : m.reverse.all (fun c => !pyWs c) = true := all_reverse_true _ _ hmw
    have hdm : m.reverse.dropWhile pyWs = m.reverse := dropWhile_of_all_not pyWs m.reverse hmrev
    cases hre : r.reverse.dropWhile pyWs with
    | nil =>
      have hs : stripChars l = m := by
        unfold stripChars
        rw [hd1, List.reverse_append, dropWhile_append_left_nil pyWs _ _ hre, hdm,
          List.reverse_reverse]
      rw [hs]
      simp [hm2]
    | cons a b =>
      have hrne : r.reverse.dropWhile pyWs ≠ [] := by
        rw [hre]
        simp
      have hs : stripChars l = m ++ (r.reverse.dropWhile pyWs).reverse := by
        unfold stripChars
        rw [hd1, List.reverse_append, dropWhile_append_left_cons pyWs _ _ hrne,
          List.reverse_append, List.reverse_reverse]
      rw [hs]
      have hap := matchCI_append (p :: ps) m [] ((r.reverse.dropWhile pyWs).reverse) hm2
      simp only [List.nil_append] at hap
      simp [hap]

theorem matchThoughts_some (l r : List Char) (h : matchThoughts l = some r) :
    (matchCI ("thoughts:".data) l).isSome = true ∨
    (matchCI ("thought:".data) l).isSome = true := by
  unfold matchThoughts at h
  cases h1 : matchCI ("thoughts:".data) l with
  | some r1 => exact Or.inl (by simp [h1])
  | none =>
    simp only [h1] at h
    exact Or.inr (by simp [h])

theorem matchThoughts_none_parts (l : List Char) (h : matchThoughts l = none) :
    matchCI ("thoughts:".data) l = none ∧ matchCI ("thought:".data) l = none := by
  unfold matchThoughts at h
  cases h1 : matchCI ("thoughts:".data) l with
  | some r1 =>
    simp only [h1] at h
    exact absurd h (by simp)
  | none =>
    simp only [h1] at h
    exact ⟨rfl, h⟩

theorem tryFence_none (c : Char) (rest : List Char) (hc : c ≠ backtick) :
    tryFence (c :: rest) = none := by
  unfold tryFence
  cases rest with
  | nil => rfl
  | cons b r2 =>
    cases r2 with
    | nil => rfl
    | cons d r3 => simp [hc]

theorem fenceScanAux_no_backtick (l : List Char) :
    ∀ fuel, l.length ≤ fuel → (l.any fun c => c = backtick) = false →
      fenceScanAux fuel l = l := by
  induction l with
  | nil => intro fuel _ _; cases fuel <;> rfl
  | cons c r ih =>
    intro fuel hfuel h
    cases fuel with
    | zero => simp at hfuel
    | succ f =>
      rw [List.any_cons] at h
      obtain ⟨hc, hr⟩ := Bool.or_eq_false_iff.mp h
      have hc' : c ≠ backtick := by simpa using hc
      show (match tryFence (c :: r) with
            | some u => fenceScanAux f u
            | none => c :: fenceScanAux f r) = c :: r
      rw [tryFence_none c r hc']
      show c :: fenceScanAux f r = c :: r
      rw [ih f (Nat.le_of_succ_le_succ (by simpa using hfuel)) hr]

theorem sanitizeList_of_noMarkers (l : List Char) (h : noMarkersB l = true) :
    sanitizeList l = stripChars l := by
  obtain ⟨h1, h2, h3, h4, _⟩ := noMarkersB_parts _ h
  have hs : noMarkersB (stripChars l) = true := noMarkersB_stripChars l h
  obtain ⟨g1, g2, g3, g4, g5⟩ := noMarkersB_parts _ hs
  simp only [sanitizeList]
  rw [subAnchored_id _ _ (matchThoughts_none l h1 h2)]
  rw [subAnchored_id _ _ (matchReasoning_none _ g3)]
  rw [stripChars_idem]
  rw [subAnchored_id _ _ (matchAnalysis_none _ g4)]
  rw [stripChars_idem]
  rw [fenceScanAux_no_backtick _ _ le_rfl g5]
  rw [stripChars_idem]

theorem sanitizeList_anchored (l : List Char)
    (h1 : matchThoughts (stripChars l) = none)
    (h2 : matchReasoning (stripChars l) = none)
    (h3 : matchAnalysis (stripChars l) = none)
    (h4 : (l.any fun c => c = backtick) = false) :
    sanitizeList l = stripChars l := by
  have hT : matchThoughts l = none := by
    cases hm : matchThoughts l with
    | none => rfl
    | some r =>
      exfalso
      obtain ⟨hp1, hp2⟩ := matchThoughts_none_parts _ h1
      rcases matchThoughts_some l r hm with hs | hs
      · cases hq : matchCI ("thoughts:".data) l with
        | none => rw [hq] at hs; exact absurd hs (by simp)
        | some r1 =>
          have hw := matchCI_strip _ (by decide) l r1 hq
          rw [hp1] at hw
          exact absurd hw (by simp)
      · cases hq : matchCI ("thought:".data) l with
        | none => rw [hq] at hs; exact absurd hs (by simp)
        | some r1 =>
          have hw := matchCI_strip _ (by decide) l r1 hq
          rw [hp2] at hw
          exact absurd hw (by simp)
  have hb : ((stripChars l).any fun c => c = backtick) = false := any_stripChars_false _ _ h4
  simp only [sanitizeList]
  rw [subAnchored_id _ _ hT]
  rw [subAnchored_id _ _ h2]
  rw [stripChars_idem]
  rw [subAnchored_id _ _ h3]
  rw [stripChars_idem]
  rw [fenceScanAux_no_backtick _ _ le_rfl hb]
  rw [stripChars_idem]

theorem stripChars_sanitizeList (l : List Char) :
    stripChars (sanitizeList l) = sanitizeList l := by
  unfold sanitizeList
  exact stripChars_idem _

theorem sar_answer (resp : StudyAssistantResponse) (a : String) :
    ({ resp with answer := a }).answer = a := rfl

theorem sar_key_points (resp : StudyAssistantResponse) (a : String) :
    ({ resp with answer := a }).key_points = resp.key_points := rfl

theorem sar_suggested (resp : StudyAssistantResponse) (a : String) :
    ({ resp with answer := a }).suggested_questions = resp.suggested_questions := rfl

theorem sar_references (resp : StudyAssistantResponse) (a : String) :
    ({ resp with answer := a }).references = resp.references := rfl

theorem string_data_eq {a b : String} (h : a.data = b.data) : a = b := by
  cases a; cases b; cases h; rfl

theorem mk_data (l : List Char) : (String.mk l).data = l := rfl

theorem sanitize_answer_data (x : String) :
    (_sanitize_answer x).data = sanitizeList x.data := by
  unfold _sanitize_answer
  exact mk_data _

theorem pyStrip_data (s : String) : (pyStrip s).data = stripChars s.data := by
  unfold pyStrip
  exact mk_data _

/-! ## Lemmas about the session store -/

theorem lookupStore_append (s t : List (String × List Message)) (sid : String) :
    lookupStore (s ++ t) sid =
      match lookupStore s sid with
      | some v => some v
      | none => lookupStore t sid := by
  induction s with
  | nil => rfl
  | cons p r ih => by_cases h : p.1 = sid <;> simp [lookupStore, h, ih]

theorem get_or_create_snd (st : AssistantState) (sid : String) :
    (_get_or_create_history st sid).2 = (lookupStore st.message_store sid).getD [] := by
  unfold _get_or_create_history
  cases h : lookupStore st.message_store sid <;> simp [h]

theorem get_or_create_lookup_self (st : AssistantState) (sid : String) :
    lookupStore (_get_or_create_history st sid).1.message_store sid
      = some ((lookupStore st.message_store sid).getD []) := by
  unfold _get_or_create_history
  cases h : lookupStore st.message_store sid with
  | some v => simp [h]
  | none => simp [h, lookupStore_append, lookupStore]

theorem get_or_create_lookup_other (st : AssistantState) (sid j : String) (hj : j ≠ sid) :
    lookupStore (_get_or_create_history st sid).1.message_store j
      = lookupStore st.message_store j := by
  unfold _get_or_create_history
  cases h : lookupStore st.message_store sid with
  | some v => rfl
  | none =>
    rw [lookupStore_append]
    cases lookupStore st.message_store j <;> simp [lookupStore, Ne.symm hj]

theorem get_or_create_notes (st : AssistantState) (sid : String) :
    (_get_or_create_history st sid).1.notes = st.notes := by
  unfold _get_or_create_history
  cases h : lookupStore st.message_store sid <;> rfl

theorem get_or_create_idem (st : AssistantState) (sid : String) :
    _get_or_create_history (_get_or_create_history st sid).1 sid
      = ((_get_or_create_history st sid).1, (_get_or_create_history st sid).2) := by
  conv_lhs => rw [_get_or_create_history]
  rw [get_or_create_lookup_self, get_or_create_snd]

theorem appendMessages_lookup_self (st : AssistantState) (sid : String) (ms : List Message) :
    lookupStore (appendMessages st sid ms).message_store sid
      = (lookupStore st.message_store sid).map (fun h => h ++ ms) := by
  show lookupStore (st.message_store.map _) sid = _
  induction st.message_store with
  | nil => rfl
  | cons p r ih => by_cases h : p.1 = sid <;> simp [lookupStore, h, ih]

theorem appendMessages_lookup_other (st : AssistantState) (sid j : String) (ms : List Message)
    (hj : j ≠ sid) :
    lookupStore (appendMessages st sid ms).message_store j
      = lookupStore st.message_store j := by
  show lookupStore (st.message_store.map _) j = _
  induction st.message_store with
  | nil => rfl
  | cons p r ih =>
    by_cases h : p.1 = sid
    · simp [lookupStore, h, hj, Ne.symm hj, ih]
    · by_cases h2 : p.1 = j <;> simp [lookupStore, h, h2, hj, Ne.symm hj, ih]

theorem appendMessages_notes (st : AssistantState) (sid : String) (ms : List Message) :
    (appendMessages st sid ms).notes = st.notes := rfl

theorem save_note_message_store (st : AssistantState) (t : String) (src : Option String) :
    (_save_note st t src).message_store = st.message_store := rfl

theorem lookupStore_of_not_mem_keys (s : List (String × List Message)) (sid : String)
    (h : sid ∉ s.map Prod.fst) : lookupStore s sid = none := by
  induction s with
  | nil => rfl
  | cons p r ih =>
    simp only [List.map_cons, List.mem_cons] at h
    push_neg at h
    simp [lookupStore, Ne.symm h.1, ih h.2]

theorem eraseStore_lookup_self (s : List (String × List Message)) (sid : String)
    (hnd : (s.map Prod.fst).Nodup) : lookupStore (eraseStore s sid) sid = none := by
  induction s with
  | nil => rfl
  | cons p r ih =>
    simp only [List.map_cons, List.nodup_cons] at hnd
    by_cases h : p.1 = sid
    · simpa [eraseStore, h] using lookupStore_of_not_mem_keys r sid (h ▸ hnd.1)
    · simp [eraseStore, lookupStore, h, ih hnd.2]

theorem eraseStore_lookup_other (s : List (String × List Message)) (sid j : String)
    (hj : j ≠ sid) : lookupStore (eraseStore s sid) j = lookupStore s j := by
  induction s with
  | nil => rfl
  | cons p r ih =>
    by_cases h : p.1 = sid
    · simp [eraseStore, lookupStore, h, hj, Ne.symm hj]
    · by_cases h2 : p.1 = j <;> simp [eraseStore, lookupStore, h, h2, hj, Ne.symm hj, ih]

/-! ## Characterization of the four execution paths of `ask` -/

theorem ask_primary_ok (retriever : List Doc → String → List Doc)
    (j s : Prompt → Except LLMError StudyAssistantResponse)
    (save_ok : Bool) (st : AssistantState) (message session_id style : String)
    (resp : StudyAssistantResponse)
    (hj : j (askPrompt retriever st message style session_id) = Except.ok resp) :
    ask retriever j s save_ok st message session_id style =
      (if save_ok then
        (_save_note
          (appendMessages (_get_or_create_history st session_id).1 session_id
            [{ role := Role.user, content := message },
             { role := Role.assistant, content := resp.answer }])
          (note_text message { resp with answer := _sanitize_answer resp.answer })
          (some "assistant_session_memory"),
         Except.ok { resp with answer := _sanitize_answer resp.answer })
      else
        (appendMessages (_get_or_create_history st session_id).1 session_id
            [{ role := Role.user, content := message },
             { role := Role.assistant, content := resp.answer }],
         Except.error AskError.storage)) := by
  simp only [askPrompt] at hj
  simp only [ask, invokeWithHistory, runChain, hj]

theorem ask_primary_fail (retriever : List Doc → String → List Doc)
    (j s : Prompt → Except LLMError StudyAssistantResponse)
    (save_ok : Bool) (st : AssistantState) (message session_id style : String)
    (e : LLMError)
    (hj : j (askPrompt retriever st message style session_id) = Except.error e)
    (hc : catchesFallback e = false) :
    ask retriever j s save_ok st message session_id style =
      ((_get_or_create_history st session_id).1, Except.error (AskError.llm e)) := by
  simp only [askPrompt] at hj
  simp only [ask, invokeWithHistory, runChain, hj, hc, Bool.false_eq_true, if_false]

theorem ask_fallback_ok (retriever : List Doc → String → List Doc)
    (j s : Prompt → Except LLMError StudyAssistantResponse)
    (save_ok : Bool) (st : AssistantState) (message session_id style : String)
    (e : LLMError) (resp : StudyAssistantResponse)
    (hj : j (askPrompt retriever st message style session_id) = Except.error e)
    (hc : catchesFallback e = true)
    (hs : s (askPrompt retriever st message style session_id) = Except.ok resp) :
    ask retriever j s save_ok st message session_id style =
      (if save_ok then
        (_save_note
          (appendMessages (_get_or_create_history st session_id).1 session_id
            [{ role := Role.user, content := message },
             { role := Role.assistant, content := resp.answer }])
          (note_text message { resp with answer := _sanitize_answer resp.answer })
          (some "assistant_session_memory"),
         Except.ok { resp with answer := _sanitize_answer resp.answer })
      else
        (appendMessages (_get_or_create_history st session_id).1 session_id
            [{ role := Role.user, content := message },
             { role := Role.assistant, content := resp.answer }],
         Except.error AskError.storage)) := by
  simp only [askPrompt] at hj hs
  simp only [ask, invokeWithHistory, runChain, hj, hc, if_true, get_or_create_idem, hs]

theorem ask_fallback_fail (retriever : List Doc → String → List Doc)
    (j s : Prompt → Except LLMError StudyAssistantResponse)
    (save_ok : Bool) (st : AssistantState) (message session_id style : String)
    (e e' : LLMError)
    (hj : j (askPrompt retriever st message style session_id) = Except.error e)
    (hc : catchesFallback e = true)
    (hs : s (askPrompt retriever st message style session_id) = Except.error e') :
    ask retriever j s save_ok st message session_id style =
      ((_get_or_create_history st session_id).1, Except.error (AskError.llm e')) := by
  simp only [askPrompt] at hj hs
  simp only [ask, invokeWithHistory, runChain, hj, hc, if_true, get_or_create_idem, hs]

theorem ask_primary_ok_save (retriever : List Doc → String → List Doc)
    (j s : Prompt → Except LLMError StudyAssistantResponse)
    (st : AssistantState) (message session_id style : String)
    (resp : StudyAssistantResponse)
    (hj : j (askPrompt retriever st message style session_id) = Except.ok resp) :
    ask retriever j s true st message session_id style =
      (_save_note
        (appendMessages (_get_or_create_history st session_id).1 session_id
          [{ role := Role.user, content := message },
           { role := Role.assistant, content := resp.answer }])
        (note_text message { resp with answer := _sanitize_answer resp.answer })
        (some "assistant_session_memory"),
       Except.ok { resp with answer := _sanitize_answer resp.answer }) :=
  ask_primary_ok retriever j s true st message session_id style resp hj

theorem ask_primary_ok_nosave (retriever : List Doc → String → List Doc)
    (j s : Prompt → Except LLMError StudyAssistantResponse)
    (st : AssistantState) (message session_id style : String)
    (resp : StudyAssistantResponse)
    (hj : j (askPrompt retriever st message style session_id) = Except.ok resp) :
    ask retriever j s false st message session_id style =
      (appendMessages (_get_or_create_history st session_id).1 session_id
        [{ role := Role.user, content := message },
         { role := Role.assistant, content := resp.answer }],
       Except.error AskError.storage) :=
  ask_primary_ok retriever j s false st message session_id style resp hj

theorem ask_fallback_ok_save (retriever : List Doc → String → List Doc)
    (j s : Prompt → Except LLMError StudyAssistantResponse)
    (st : AssistantState) (message session_id style : String)
    (e : LLMError) (resp : StudyAssistantResponse)
    (hj : j (askPrompt retriever st message style session_id) = Except.error e)
    (hc : catchesFallback e = true)
    (hs : s (askPrompt retriever st message style session_id) = Except.ok resp) :
    ask retriever j s true st message session_id style =
      (_save_note
        (appendMessages (_get_or_create_history st session_id).1 session_id
          [{ role := Role.user, content := message },
           { role := Role.assistant, content := resp.answer }])
        (note_text message { resp with answer := _sanitize_answer resp.answer })
        (some "assistant_session_memory"),
       Except.ok { resp with answer := _sanitize_answer resp.answer }) :=
  ask_fallback_ok retriever j s true st message session_id style e resp hj hc hs

theorem ask_fallback_ok_nosave (retriever : List Doc → String → List Doc)
    (j s : Prompt → Except LLMError StudyAssistantResponse)
    (st : AssistantState) (message session_id style : String)
    (e : LLMError) (resp : StudyAssistantResponse)
    (hj : j (askPrompt retriever st message style session_id) = Except.error e)
    (hc : catchesFallback e = true)
    (hs : s (askPrompt retriever st message style session_id) = Except.ok resp) :
    ask retriever j s false st message session_id style =
      (appendMessages (_get_or_create_history st session_id).1 session_id
        [{ role := Role.user, content := message },
         { role := Role.assistant, content := resp.answer }],
       Except.error AskError.storage) :=
  ask_fallback_ok retriever j s false st message session_id style e resp hj hc hs

/-! ## Concrete fixtures used by witnesses and counterexamples -/

/-- Retriever fixture returning no documents. -/
def retNone : List Doc → String → List Doc := fun _ _ => []

/-- A plain model answer. -/
def respA : StudyAssistantResponse := { answer := "ans" }

/-- Completion fixture that always succeeds with `respA`. -/
def llmOk : Prompt → Except LLMError StudyAssistantResponse := fun _ => Except.ok respA

/-- Completion fixture whose answer leaks a reasoning line before the
visible text. -/
def llmLeak : Prompt → Except LLMError StudyAssistantResponse :=
  fun _ => Except.ok { answer := "Thoughts: secret\nVisible" }

/-- Completion fixture whose answer is nothing but a leaked marker line. -/
def llmLeakOnly : Prompt → Except LLMError StudyAssistantResponse :=
  fun _ => Except.ok { answer := "Thoughts: hidden" }

/-- Completion fixture failing with a shape-rejection error. -/
def llmMalformed : Prompt → Except LLMError StudyAssistantResponse :=
  fun _ => Except.error LLMError.MalformedOutput

/-- Completion fixture failing with a connectivity error. -/
def llmUnavailable : Prompt → Except LLMError StudyAssistantResponse :=
  fun _ => Except.error LLMError.ProviderUnavailable

/-- The empty assistant state (fresh instance). -/
def st0 : AssistantState := { message_store := [], notes := [] }

/-! ## Claims -/

/-- Claim C1, counterexample: the claim says every line beginning with
`Reasoning:` is removed, but on the input
`"Final answer here\nReasoning: the sky is blue"` the sanitizer returns
the input unchanged — the `^` anchors match only at the start of the
string (no `re.MULTILINE`), so the second line is not removed and the
output is not `"Final answer here"`. -/
theorem C1_counterexample :
    _sanitize_answer "Final answer here\nReasoning: the sky is blue"
      = "Final answer here\nReasoning: the sky is blue" ∧
    _sanitize_answer "Final answer here\nReasoning: the sky is blue" ≠ "Final answer here" :=
  ⟨by decide, by decide⟩

/-- Claim C1 (amended): marker-line removal is anchored. Universally,
every input that contains no backquote and whose whitespace-stripped form
does not begin, case-insensitively, with `thoughts:`, `thought:`,
`reasoning:` or `analysis:` is returned exactly stripped of surrounding
whitespace — no content is removed, so marker words occurring
mid-sentence or on a later line are never removed from such inputs.
Marker lines are removed only by anchored matches at the start of the
successively stripped string, one pass per marker in the order Thoughts,
Reasoning, Analysis, and labelled fenced blocks are removed through their
closing fence — both exhibited on concrete inputs below, together with
the spec's two examples. -/
theorem C1_amended_anchored_sanitizer :
    (∀ text : String,
      matchThoughts (stripChars text.data) = none →
      matchReasoning (stripChars text.data) = none →
      matchAnalysis (stripChars text.data) = none →
      (text.data.any fun c => c = backtick) = false →
      _sanitize_answer text = pyStrip text) ∧
    _sanitize_answer "My reasoning skills are great." = "My reasoning skills are great." ∧
    _sanitize_answer "Reasoning: the sky is blue\nFinal answer here" = "Final answer here" ∧
    _sanitize_answer "Thoughts: a\nReasoning: b\nRest" = "Rest" ∧
    _sanitize_answer "Reasoning: b\nThoughts: a\nRest" = "Thoughts: a\nRest" ∧
    _sanitize_answer "A\n```thought\nhidden\n```\nB" = "A\n\nB" ∧
    _sanitize_answer "keep\nAnalysis: later line stays" = "keep\nAnalysis: later line stays" := by
  refine ⟨?_, by decide, by decide, by decide, by decide, by decide, by decide⟩
  intro text h1 h2 h3 h4
  apply string_data_eq
  rw [sanitize_answer_data, pyStrip_data, sanitizeList_anchored text.data h1 h2 h3 h4]

/-- Witness for C1 (amended) at a padded input whose second line starts
with a marker word: only the surrounding whitespace is removed. -/
theorem C1_amended_witness :
    matchThoughts (stripChars ("  ok\nReasoning: later  " : String).data) = none ∧
    matchReasoning (stripChars ("  ok\nReasoning: later  " : String).data) = none ∧
    matchAnalysis (stripChars ("  ok\nReasoning: later  " : String).data) = none ∧
    (("  ok\nReasoning: later  " : String).data.any fun c => c = backtick) = false ∧
    _sanitize_answer "  ok\nReasoning: later  " = pyStrip "  ok\nReasoning: later  " :=
  ⟨by decide, by decide, by decide, by decide,
   C1_amended_anchored_sanitizer.1 "  ok\nReasoning: later  " (by decide) (by decide)
     (by decide) (by decide)⟩

/-- Claim C2, counterexample: the sanitizer is not idempotent. On
`"Reasoning: b\nThoughts: a\nX"` one application removes only the leading
`Reasoning:` line (the `Thoughts:` pass ran before the `Reasoning:` pass
uncovered the `Thoughts:` line), so a second application removes more. -/
theorem C2_counterexample :
    _sanitize_answer (_sanitize_answer "Reasoning: b\nThoughts: a\nX")
      ≠ _sanitize_answer "Reasoning: b\nThoughts: a\nX" ∧
    _sanitize_answer "Reasoning: b\nThoughts: a\nX" = "Thoughts: a\nX" ∧
    _sanitize_answer "Thoughts: a\nX" = "X" :=
  ⟨by decide, by decide, by decide⟩

/-- Claim C2 (amended): the sanitizer is idempotent on every input whose
sanitized output contains no marker occurrence (no case-insensitive
`thought(s):`, `reasoning:` or `analysis:` substring and no backquote);
in general a second application can strip further uncovered leading
marker lines, as the counterexample shows. -/
theorem C2_amended_idempotent_on_clean (x : String)
    (h : noMarkersB (_sanitize_answer x).data = true) :
    _sanitize_answer (_sanitize_answer x) = _sanitize_answer x := by
  rw [sanitize_answer_data] at h
  apply string_data_eq
  rw [sanitize_answer_data (_sanitize_answer x), sanitize_answer_data x,
    sanitizeList_of_noMarkers _ h, stripChars_sanitizeList]

/-- Witness for C2 (amended) at a concrete marker-free input. -/
theorem C2_amended_witness :
    noMarkersB (_sanitize_answer "All good.").data = true ∧
    _sanitize_answer (_sanitize_answer "All good.") = _sanitize_answer "All good." :=
  ⟨by decide, C2_amended_idempotent_on_clean "All good." (by decide)⟩

/-- Claim C10: on marker-free input (no case-insensitive occurrence of
the marker tokens and no backquote) the sanitizer is exactly
`str.strip()` — it unconditionally removes surrounding whitespace rather
than returning the input; and every sanitizer output is already stripped
(no leading or trailing whitespace), because each pass ends in
`.strip()`. -/
theorem C10_sanitizer_strips (text : String) :
    (noMarkersB text.data = true → _sanitize_answer text = pyStrip text) ∧
    pyStrip (_sanitize_answer text) = _sanitize_answer text := by
  constructor
  · intro h
    apply string_data_eq
    rw [sanitize_answer_data, pyStrip_data, sanitizeList_of_noMarkers _ h]
  · apply string_data_eq
    rw [pyStrip_data, sanitize_answer_data, stripChars_sanitizeList]

/-- Witness for C10 at concrete whitespace-padded inputs. -/
theorem C10_witness :
    noMarkersB ("  An answer.  " : String).data = true ∧
    _sanitize_answer "  An answer.  " = pyStrip "  An answer.  " ∧
    pyStrip (_sanitize_answer "\n mid term \n") = _sanitize_answer "\n mid term \n" :=
  ⟨by decide, (C10_sanitizer_strips "  An answer.  ").1 (by decide),
   (C10_sanitizer_strips "\n mid term \n").2⟩

/-- Claim C7: any style outside `short`/`detailed` behaves exactly like
`short` — the style value only reaches the call through
`normalized_style`, so the whole `ask` call (state effects and result)
coincides with a `"short"` call. -/
theorem C7_style_normalization (retriever : List Doc → String → List Doc)
    (llm_json llm_schema : Prompt → Except LLMError StudyAssistantResponse)
    (save_ok : Bool) (st : AssistantState) (message session_id style : String)
    (h : ¬(style = "short" ∨ style = "detailed")) :
    ask retriever llm_json llm_schema save_ok st message session_id style
      = ask retriever llm_json llm_schema save_ok st message session_id "short" := by
  push_neg at h
  have hcond : ¬((style = "short" || style = "detailed") = true) := by
    simp [h.1, h.2]
  have h1 : normalized_style style = "short" := by
    unfold normalized_style
    rw [if_neg hcond]
  have h2 : normalized_style "short" = "short" := rfl
  unfold ask
  rw [h1, h2]

/-- Witness for C7 at the style value `"verbose"`. -/
theorem C7_witness :
    ¬(("verbose" : String) = "short" ∨ ("verbose" : String) = "detailed") ∧
    ask retNone llmOk llmOk true st0 "q" "s7" "verbose"
      = ask retNone llmOk llmOk true st0 "q" "s7" "short" :=
  ⟨by decide, C7_style_normalization retNone llmOk llmOk true st0 "q" "s7" "verbose" (by decide)⟩

/-- Claim C9: `reset_session` removes exactly the given session's log
(under the dict invariant that keys are unique), leaves every other
session's log and the note store untouched, and is a no-op (raising
nothing) when the session id is absent. -/
theorem C9_reset_session (st : AssistantState) (sid : String)
    (hnd : (st.message_store.map Prod.fst).Nodup) :
    lookupStore (reset_session st sid).message_store sid = none ∧
    (∀ j, j ≠ sid → lookupStore (reset_session st sid).message_store j
        = lookupStore st.message_store j) ∧
    (reset_session st sid).notes = st.notes ∧
    (lookupStore st.message_store sid = none → reset_session st sid = st) := by
  unfold reset_session
  cases h : lookupStore st.message_store sid with
  | none => exact ⟨h, fun j _ => rfl, rfl, fun _ => rfl⟩
  | some v =>
    refine ⟨eraseStore_lookup_self _ _ hnd, fun j hj => eraseStore_lookup_other _ _ _ hj, rfl, ?_⟩
    intro h0
    exact Option.noConfusion h0

/-- Fixture state with two sessions, for the C9 witness. -/
def st9 : AssistantState :=
  { message_store := [("a", [{ role := Role.user, content := "m" }]), ("b", [])], notes := [] }

/-- Witness for C9 on a concrete two-session state. -/
theorem C9_witness :
    (st9.message_store.map Prod.fst).Nodup ∧
    lookupStore (reset_session st9 "a").message_store "a" = none ∧
    lookupStore (reset_session st9 "a").message_store "b" = lookupStore st9.message_store "b" ∧
    (reset_session st9 "a").notes = st9.notes :=
  ⟨by decide, (C9_reset_session st9 "a" (by decide)).1,
   (C9_reset_session st9 "a" (by decide)).2.1 "b" (by decide),
   (C9_reset_session st9 "a" (by decide)).2.2.1⟩

/-- Claim C4: a shape-rejection failure (`MalformedOutput` or
`ProviderRejected`, the caught exception classes) of the primary
json_mode strategy triggers exactly one retry with the json_schema
strategy at the identical prompt (`askPrompt`, the same value the primary
received); the secondary attempt's outcome — success or any failure — is
final, and a `ProviderUnavailable` primary failure propagates without any
retry, whatever the secondary strategy would have answered. -/
theorem C4_fallback_policy (retriever : List Doc → String → List Doc)
    (llm_json llm_schema : Prompt → Except LLMError StudyAssistantResponse)
    (save_ok : Bool) (st : AssistantState) (message session_id style : String) :
    (∀ e e', catchesFallback e = true →
      llm_json (askPrompt retriever st message style session_id) = Except.error e →
      llm_schema (askPrompt retriever st message style session_id) = Except.error e' →
      ask retriever llm_json llm_schema save_ok st message session_id style
        = ((_get_or_create_history st session_id).1, Except.error (AskError.llm e'))) ∧
    (∀ e resp, catchesFallback e = true →
      llm_json (askPrompt retriever st message style session_id) = Except.error e →
      llm_schema (askPrompt retriever st message style session_id) = Except.ok resp →
      (ask retriever llm_json llm_schema save_ok st message session_id style).2
        = (if save_ok then Except.ok { resp with answer := _sanitize_answer resp.answer }
           else Except.error AskError.storage)) ∧
    (∀ llm2 : Prompt → Except LLMError StudyAssistantResponse,
      llm_json (askPrompt retriever st message style session_id)
        = Except.error LLMError.ProviderUnavailable →
      ask retriever llm_json llm2 save_ok st message session_id style
        = ((_get_or_create_history st session_id).1,
           Except.error (AskError.llm LLMError.ProviderUnavailable))) := by
  refine ⟨?_, ?_, ?_⟩
  · intro e e' hc hj hs
    exact ask_fallback_fail retriever llm_json llm_schema save_ok st message session_id style
      e e' hj hc hs
  · intro e resp hc hj hs
    cases save_ok with
    | true =>
      rw [ask_fallback_ok_save retriever llm_json llm_schema st message session_id style
        e resp hj hc hs]
      rfl
    | false =>
      rw [ask_fallback_ok_nosave retriever llm_json llm_schema st message session_id style
        e resp hj hc hs]
      rfl
  · intro llm2 hj
    exact ask_primary_fail retriever llm_json llm2 save_ok st message session_id style
      LLMError.ProviderUnavailable hj rfl

/-- Witness for C4: a malformed primary answer is transparently repaired
by the schema strategy, and an unavailable provider propagates. -/
theorem C4_witness :
    catchesFallback LLMError.MalformedOutput = true ∧
    (ask retNone llmMalformed llmOk true st0 "q" "s4" "short").2
      = Except.ok { answer := "ans" } ∧
    ask retNone llmUnavailable llmOk true st0 "q" "s4b" "short"
      = ((_get_or_create_history st0 "s4b").1,
         Except.error (AskError.llm LLMError.ProviderUnavailable)) := by
  refine ⟨rfl, ?_, ?_⟩
  · have h := (C4_fallback_policy retNone llmMalformed llmOk true st0 "q" "s4" "short").2.1
      LLMError.MalformedOutput respA rfl rfl rfl
    rw [h]
    rfl
  · exact (C4_fallback_policy retNone llmUnavailable llmOk true st0 "q" "s4b" "short").2.2
      llmOk rfl

/-- Claim C3, counterexample: when the completion succeeds but the note
write fails, the failed `ask` leaves a partial record — the session log
already holds the exchange (appended during invocation) while the note
store received nothing, contradicting "either both happen or neither". -/
theorem C3_counterexample :
    (ask retNone llmOk llmOk false st0 "q" "s3" "short").2 = Except.error AskError.storage ∧
    lookupStore (ask retNone llmOk llmOk false st0 "q" "s3" "short").1.message_store "s3"
      = some [{ role := Role.user, content := "q" },
              { role := Role.assistant, content := "ans" }] ∧
    (ask retNone llmOk llmOk false st0 "q" "s3" "short").1.notes = st0.notes :=
  ⟨rfl, rfl, rfl⟩

/-- Claim C3 (amended): a failed `ask` never writes the derived note, and
a completion failure (both strategies, or a non-retryable primary
failure) leaves the state exactly as `_get_or_create_history` left it —
no exchange content recorded; but the history append and the note write
are not atomic: when only the note write fails, the history append has
already happened (see the counterexample). A single error propagates in
every failure case. -/
theorem C3_amended_failure_semantics (retriever : List Doc → String → List Doc)
    (llm_json llm_schema : Prompt → Except LLMError StudyAssistantResponse)
    (save_ok : Bool) (st : AssistantState) (message session_id style : String) :
    (∀ e, (ask retriever llm_json llm_schema save_ok st message session_id style).2
        = Except.error (AskError.llm e) →
      (ask retriever llm_json llm_schema save_ok st message session_id style).1
        = (_get_or_create_history st session_id).1) ∧
    (∀ err, (ask retriever llm_json llm_schema save_ok st message session_id style).2
        = Except.error err →
      (ask retriever llm_json llm_schema save_ok st message session_id style).1.notes
        = st.notes) := by
  constructor
  · intro e he
    cases hj : llm_json (askPrompt retriever st message style session_id) with
    | ok resp =>
      cases save_ok with
      | true =>
        rw [ask_primary_ok_save retriever llm_json llm_schema st message session_id style
          resp hj] at he
        exact absurd he (by simp)
      | false =>
        rw [ask_primary_ok_nosave retriever llm_json llm_schema st message session_id style
          resp hj] at he
        simp at he
    | error e0 =>
      cases hc : catchesFallback e0 with
      | false =>
        rw [ask_primary_fail retriever llm_json llm_schema save_ok st message session_id style
          e0 hj hc]
      | true =>
        cases hs : llm_schema (askPrompt retriever st message style session_id) with
        | ok resp =>
          cases save_ok with
          | true =>
            rw [ask_fallback_ok_save retriever llm_json llm_schema st message session_id style
              e0 resp hj hc hs] at he
            exact absurd he (by simp)
          | false =>
            rw [ask_fallback_ok_nosave retriever llm_json llm_schema st message session_id style
              e0 resp hj hc hs] at he
            simp at he
        | error e1 =>
          rw [ask_fallback_fail retriever llm_json llm_schema save_ok st message session_id style
            e0 e1 hj hc hs]
  · intro err he
    cases hj : llm_json (askPrompt retriever st message style session_id) with
    | ok resp =>
      cases save_ok with
      | true =>
        rw [ask_primary_ok_save retriever llm_json llm_schema st message session_id style
          resp hj] at he
        exact absurd he (by simp)
      | false =>
        rw [ask_primary_ok_nosave retriever llm_json llm_schema st message session_id style
          resp hj]
        simp [appendMessages_notes, get_or_create_notes]
    | error e0 =>
      cases hc : catchesFallback e0 with
      | false =>
        rw [ask_primary_fail retriever llm_json llm_schema save_ok st message session_id style
          e0 hj hc]
        exact get_or_create_notes st session_id
      | true =>
        cases hs : llm_schema (askPrompt retriever st message style session_id) with
        | ok resp =>
          cases save_ok with
          | true =>
            rw [ask_fallback_ok_save retriever llm_json llm_schema st message session_id style
              e0 resp hj hc hs] at he
            exact absurd he (by simp)
          | false =>
            rw [ask_fallback_ok_nosave retriever llm_json llm_schema st message session_id style
              e0 resp hj hc hs]
            simp [appendMessages_notes, get_or_create_notes]
        | error e1 =>
          rw [ask_fallback_fail retriever llm_json llm_schema save_ok st message session_id style
            e0 e1 hj hc hs]
          exact get_or_create_notes st session_id

/-- Witness for C3 (amended): a completion failure records nothing. -/
theorem C3_amended_witness :
    (ask retNone llmUnavailable llmOk true st0 "q" "s3w" "short").2
      = Except.error (AskError.llm LLMError.ProviderUnavailable) ∧
    (ask retNone llmUnavailable llmOk true st0 "q" "s3w" "short").1
      = (_get_or_create_history st0 "s3w").1 ∧
    (ask retNone llmUnavailable llmOk true st0 "q" "s3w" "short").1.notes = st0.notes :=
  ⟨rfl,
   (C3_amended_failure_semantics retNone llmUnavailable llmOk true st0 "q" "s3w" "short").1
     LLMError.ProviderUnavailable rfl,
   (C3_amended_failure_semantics retNone llmUnavailable llmOk true st0 "q" "s3w" "short").2
     (AskError.llm LLMError.ProviderUnavailable) rfl⟩

/-- Claim C5, counterexample: the assistant message recorded in the
session log is the raw model answer (the `AIMessage` is built from
`resp.answer` inside the chain, before sanitization), so when the model
leaks a marker line, the recorded content differs from the sanitized
answer returned to the caller. -/
theorem C5_counterexample :
    (ask retNone llmLeak llmLeak true st0 "q" "s5" "short").2
      = Except.ok { answer := "Visible" } ∧
    lookupStore (ask retNone llmLeak llmLeak true st0 "q" "s5" "short").1.message_store "s5"
      = some [{ role := Role.user, content := "q" },
              { role := Role.assistant, content := "Thoughts: secret\nVisible" }] ∧
    ("Thoughts: secret\nVisible" : String) ≠ "Visible" :=
  ⟨rfl, rfl, by decide⟩

/-- Claim C5 (amended): after a successful `ask` (either strategy), the
session log has the user message and the assistant's RAW
(pre-sanitization) answer appended, while the caller receives the
sanitized answer and the persisted note is built from the sanitized
answer; recorded history and returned answer coincide only when
sanitization leaves the answer unchanged. -/
theorem C5_amended_history_raw (retriever : List Doc → String → List Doc)
    (llm_json llm_schema : Prompt → Except LLMError StudyAssistantResponse)
    (st : AssistantState) (message session_id style : String) :
    (∀ resp, llm_json (askPrompt retriever st message style session_id) = Except.ok resp →
      lookupStore (ask retriever llm_json llm_schema true st message
          session_id style).1.message_store session_id
        = some ((lookupStore st.message_store session_id).getD []
            ++ [{ role := Role.user, content := message },
                { role := Role.assistant, content := resp.answer }]) ∧
      (ask retriever llm_json llm_schema true st message session_id style).2
        = Except.ok { resp with answer := _sanitize_answer resp.answer } ∧
      (ask retriever llm_json llm_schema true st message session_id style).1.notes
        = st.notes ++ [Doc.mk
            (note_text message { resp with answer := _sanitize_answer resp.answer })
            (some "assistant_session_memory")]) ∧
    (∀ e resp, catchesFallback e = true →
      llm_json (askPrompt retriever st message style session_id) = Except.error e →
      llm_schema (askPrompt retriever st message style session_id) = Except.ok resp →
      lookupStore (ask retriever llm_json llm_schema true st message
          session_id style).1.message_store session_id
        = some ((lookupStore st.message_store session_id).getD []
            ++ [{ role := Role.user, content := message },
                { role := Role.assistant, content := resp.answer }]) ∧
      (ask retriever llm_json llm_schema true st message session_id style).2
        = Except.ok { resp with answer := _sanitize_answer resp.answer }) := by
  constructor
  · intro resp hj
    have heq := ask_primary_ok_save retriever llm_json llm_schema st message session_id style
      resp hj
    refine ⟨?_, ?_, ?_⟩
    · simp only [heq, save_note_message_store]
      rw [appendMessages_lookup_self, get_or_create_lookup_self]
      rfl
    · simp only [heq]
    · simp only [heq, _save_note, appendMessages_notes, get_or_create_notes]
      rfl
  · intro e resp hc hj hs
    have heq := ask_fallback_ok_save retriever llm_json llm_schema st message session_id style
      e resp hj hc hs
    constructor
    · simp only [heq, save_note_message_store]
      rw [appendMessages_lookup_self, get_or_create_lookup_self]
      rfl
    · simp only [heq]

/-- Witness for C5 (amended) at a concrete leaking model answer. -/
theorem C5_amended_witness :
    lookupStore (ask retNone llmLeak llmLeak true st0 "q" "s5w" "short").1.message_store "s5w"
      = some ((lookupStore st0.message_store "s5w").getD []
          ++ [{ role := Role.user, content := "q" },
              { role := Role.assistant, content := "Thoughts: secret\nVisible" }]) ∧
    (ask retNone llmLeak llmLeak true st0 "q" "s5w" "short").2
      = Except.ok { answer := "Visible" } := by
  have h := (C5_amended_history_raw retNone llmLeak llmLeak st0 "q" "s5w" "short").1
    { answer := "Thoughts: secret\nVisible" } rfl
  refine ⟨h.1, ?_⟩
  rw [h.2.1]
  rfl

/-- Claim C6, counterexample: `ask` can succeed with an empty `answer`
even for a non-empty message — nothing enforces non-emptiness, and the
sanitizer can erase the whole answer when the model returns only a
marker line. -/
theorem C6_counterexample :
    ("hi" : String) ≠ "" ∧
    (ask retNone llmLeakOnly llmLeakOnly true st0 "hi" "s6" "short").2
      = Except.ok { answer := "" } :=
  ⟨by decide, rfl⟩

/-- Claim C6 (amended): whenever `ask` succeeds, the returned response is
the schema-validated model output with only its answer rewritten by the
sanitizer: `key_points`, `suggested_questions` and `references` are
exactly the validated output's lists (always present, possibly empty),
and `answer` equals the sanitized model answer — which may be the empty
string, so non-emptiness of `answer` is not guaranteed. -/
theorem C6_amended_shape (retriever : List Doc → String → List Doc)
    (llm_json llm_schema : Prompt → Except LLMError StudyAssistantResponse)
    (save_ok : Bool) (st : AssistantState) (message session_id style : String) :
    ∀ r, (ask retriever llm_json llm_schema save_ok st message session_id style).2
        = Except.ok r →
      ∃ resp : StudyAssistantResponse, r.answer = _sanitize_answer resp.answer ∧
        r.key_points = resp.key_points ∧
        r.suggested_questions = resp.suggested_questions ∧
        r.references = resp.references := by
  intro r hr
  cases hj : llm_json (askPrompt retriever st message style session_id) with
  | ok resp =>
    cases save_ok with
    | true =>
      rw [ask_primary_ok_save retriever llm_json llm_schema st message session_id style
        resp hj] at hr
      have hr' : Except.ok { resp with answer := _sanitize_answer resp.answer }
          = Except.ok r := hr
      injection hr' with h2
      subst h2
      exact ⟨resp, sar_answer resp _, sar_key_points resp _, sar_suggested resp _,
        sar_references resp _⟩
    | false =>
      rw [ask_primary_ok_nosave retriever llm_json llm_schema st message session_id style
        resp hj] at hr
      simp at hr
  | error e0 =>
    cases hc : catchesFallback e0 with
    | false =>
      rw [ask_primary_fail retriever llm_json llm_schema save_ok st message session_id style
        e0 hj hc] at hr
      simp at hr
    | true =>
      cases hs : llm_schema (askPrompt retriever st message style session_id) with
      | ok resp =>
        cases save_ok with
        | true =>
          rw [ask_fallback_ok_save retriever llm_json llm_schema st message session_id style
            e0 resp hj hc hs] at hr
          have hr' : Except.ok { resp with answer := _sanitize_answer resp.answer }
              = Except.ok r := hr
          injection hr' with h2
          subst h2
          exact ⟨resp, sar_answer resp _, sar_key_points resp _, sar_suggested resp _,
            sar_references resp _⟩
        | false =>
          rw [ask_fallback_ok_nosave retriever llm_json llm_schema st message session_id style
            e0 resp hj hc hs] at hr
          simp at hr
      | error e1 =>
        rw [ask_fallback_fail retriever llm_json llm_schema save_ok st message session_id style
          e0 e1 hj hc hs] at hr
        simp at hr

/-- Witness for C6 (amended) at a concrete successful call. -/
theorem C6_amended_witness :
    ∃ resp : StudyAssistantResponse, ({ answer := "ans" } : StudyAssistantResponse).answer
        = _sanitize_answer resp.answer ∧
      ({ answer := "ans" } : StudyAssistantResponse).key_points = resp.key_points ∧
      ({ answer := "ans" } : StudyAssistantResponse).suggested_questions
        = resp.suggested_questions ∧
      ({ answer := "ans" } : StudyAssistantResponse).references = resp.references :=
  C6_amended_shape retNone llmOk llmOk true st0 "hi" "s6w" "short" { answer := "ans" } rfl

theorem askPrompt_congr (retriever : List Doc → String → List Doc)
    (st st' : AssistantState) (message style session_id : String)
    (hA : lookupStore st.message_store session_id = lookupStore st'.message_store session_id)
    (hN : st.notes = st'.notes) :
    askPrompt retriever st message style session_id
      = askPrompt retriever st' message style session_id := by
  unfold askPrompt
  rw [get_or_create_snd, get_or_create_snd, hA, hN]

theorem ask_lookup_frame (retriever : List Doc → String → List Doc)
    (llm_json llm_schema : Prompt → Except LLMError StudyAssistantResponse)
    (save_ok : Bool) (st : AssistantState) (message session_id style j : String)
    (hj : j ≠ session_id) :
    lookupStore (ask retriever llm_json llm_schema save_ok st message
        session_id style).1.message_store j
      = lookupStore st.message_store j := by
  cases hjp : llm_json (askPrompt retriever st message style session_id) with
  | ok resp =>
    cases save_ok with
    | true =>
      simp only [ask_primary_ok_save retriever llm_json llm_schema st message session_id style
        resp hjp, save_note_message_store]
      rw [appendMessages_lookup_other _ _ _ _ hj, get_or_create_lookup_other _ _ _ hj]
    | false =>
      simp only [ask_primary_ok_nosave retriever llm_json llm_schema st message session_id style
        resp hjp]
      rw [appendMessages_lookup_other _ _ _ _ hj, get_or_create_lookup_other _ _ _ hj]
  | error e0 =>
    cases hc : catchesFallback e0 with
    | false =>
      simp only [ask_primary_fail retriever llm_json llm_schema save_ok st message session_id
        style e0 hjp hc]
      exact get_or_create_lookup_other _ _ _ hj
    | true =>
      cases hs : llm_schema (askPrompt retriever st message style session_id) with
      | ok resp =>
        cases save_ok with
        | true =>
          simp only [ask_fallback_ok_save retriever llm_json llm_schema st message session_id
            style e0 resp hjp hc hs, save_note_message_store]
          rw [appendMessages_lookup_other _ _ _ _ hj, get_or_create_lookup_other _ _ _ hj]
        | false =>
          simp only [ask_fallback_ok_nosave retriever llm_json llm_schema st message session_id
            style e0 resp hjp hc hs]
          rw [appendMessages_lookup_other _ _ _ _ hj, get_or_create_lookup_other _ _ _ hj]
      | error e1 =>
        simp only [ask_fallback_fail retriever llm_json llm_schema save_ok st message session_id
          style e0 e1 hjp hc hs]
        exact get_or_create_lookup_other _ _ _ hj

theorem ask_snd_congr (retriever : List Doc → String → List Doc)
    (llm_json llm_schema : Prompt → Except LLMError StudyAssistantResponse)
    (save_ok : Bool) (st st' : AssistantState) (message session_id style : String)
    (hA : lookupStore st.message_store session_id = lookupStore st'.message_store session_id)
    (hN : st.notes = st'.notes) :
    (ask retriever llm_json llm_schema save_ok st message session_id style).2
      = (ask retriever llm_json llm_schema save_ok st' message session_id style).2 := by
  have hp := askPrompt_congr retriever st st' message style session_id hA hN
  cases hjp : llm_json (askPrompt retriever st message style session_id) with
  | ok resp =>
    have hjp' : llm_json (askPrompt retriever st' message style session_id)
        = Except.ok resp := by rw [← hp]; exact hjp
    cases save_ok with
    | true =>
      rw [ask_primary_ok_save retriever llm_json llm_schema st message session_id style
        resp hjp, ask_primary_ok_save retriever llm_json llm_schema st' message session_id style
        resp hjp']
    | false =>
      rw [ask_primary_ok_nosave retriever llm_json llm_schema st message session_id style
        resp hjp, ask_primary_ok_nosave retriever llm_json llm_schema st' message session_id style
        resp hjp']
  | error e0 =>
    have hjp' : llm_json (askPrompt retriever st' message style session_id)
        = Except.error e0 := by rw [← hp]; exact hjp
    cases hc : catchesFallback e0 with
    | false =>
      rw [ask_primary_fail retriever llm_json llm_schema save_ok st message session_id style
        e0 hjp hc, ask_primary_fail retriever llm_json llm_schema save_ok st' message session_id
        style e0 hjp' hc]
    | true =>
      cases hs : llm_schema (askPrompt retriever st message style session_id) with
      | ok resp =>
        have hs' : llm_schema (askPrompt retriever st' message style session_id)
            = Except.ok resp := by rw [← hp]; exact hs
        cases save_ok with
        | true =>
          rw [ask_fallback_ok_save retriever llm_json llm_schema st message session_id style
            e0 resp hjp hc hs, ask_fallback_ok_save retriever llm_json llm_schema st' message
            session_id style e0 resp hjp' hc hs']
        | false =>
          rw [ask_fallback_ok_nosave retriever llm_json llm_schema st message session_id style
            e0 resp hjp hc hs, ask_fallback_ok_nosave retriever llm_json llm_schema st' message
            session_id style e0 resp hjp' hc hs']
      | error e1 =>
        have hs' : llm_schema (askPrompt retriever st' message style session_id)
            = Except.error e1 := by rw [← hp]; exact hs
        rw [ask_fallback_fail retriever llm_json llm_schema save_ok st message session_id style
          e0 e1 hjp hc hs, ask_fallback_fail retriever llm_json llm_schema save_ok st' message
          session_id style e0 e1 hjp' hc hs']

/-- Claim C8: distinct session ids have independent histories — an `ask`
under session id A leaves every other session id B's log untouched, and
the outcome the caller sees depends only on A's log and the shared note
store (two states agreeing on those produce the same outcome), so
messages appended under B are never observed. -/
theorem C8_session_isolation (retriever : List Doc → String → List Doc)
    (llm_json llm_schema : Prompt → Except LLMError StudyAssistantResponse)
    (save_ok : Bool) (A B : String) (hAB : A ≠ B)
    (st st' : AssistantState) (message style : String)
    (hA : lookupStore st.message_store A = lookupStore st'.message_store A)
    (hN : st.notes = st'.notes) :
    lookupStore (ask retriever llm_json llm_schema save_ok st message A style).1.message_store B
      = lookupStore st.message_store B ∧
    (ask retriever llm_json llm_schema save_ok st message A style).2
      = (ask retriever llm_json llm_schema save_ok st' message A style).2 :=
  ⟨ask_lookup_frame retriever llm_json llm_schema save_ok st message A style B (Ne.symm hAB),
   ask_snd_congr retriever llm_json llm_schema save_ok st st' message A style hA hN⟩

/-- Fixture state holding only a session-B log, for the C8 witness. -/
def st8 : AssistantState :=
  { message_store := [("B", [{ role := Role.user, content := "old" }])], notes := [] }

/-- Witness for C8 at concrete distinct session ids. -/
theorem C8_witness :
    (("A" : String) ≠ "B") ∧
    lookupStore (ask retNone llmOk llmOk true st8 "q" "A" "short").1.message_store "B"
      = lookupStore st8.message_store "B" ∧
    (ask retNone llmOk llmOk true st8 "q" "A" "short").2
      = (ask retNone llmOk llmOk true st0 "q" "A" "short").2 := by
  have h := C8_session_isolation retNone llmOk llmOk true "A" "B" (by decide) st8 st0
    "q" "short" rfl rfl
  exact ⟨by decide, h.1, h.2⟩

end StudyBot
